import Mathlib

/-!
Verification of the DFU host-side core (`src/dfu.c`) of libdfu.

The shallow embedding below translates, from the C source:
  * the GETSTATUS decoder `dfu_get_status` (dfu.c lines 148-181),
  * the diagnostic tables `dfu_state_to_string` (lines 263-307),
    `dfu_status_names` (lines 310-343) and `dfu_status_to_string`
    (lines 346-351),
  * the flashing orchestrator `dfu_flash` (lines 386-540), with its
    `status_again` normalization loop rendered as the fuel-indexed
    recursion `statusLoop`.

External collaborators (libusb, the file loader, `probe_devices`, the
download engine `dfuload_do_dnload`) are modelled as oracles supplied in a
`FlashEnv`: each field records the value the collaborator would return.
Every observable action of the orchestrator (control transfers, handle
open/close, stderr diagnostics, sleeps) is logged in an event trace so
that ordering and absence properties can be stated.  `errx` terminates
the process (BSD err.h semantics); it is modelled as the terminal result
`ExitKind.procExit`, which closes nothing.
-/

namespace LibDfu

/-- Modelled from the spec: `dfu.h` is not under `src/`; the DFU state codes
follow the USB DFU 1.0 enumeration, in the order the spec lists the 11
named states in section 4.3 (runtime-idle = 0 .. dfu-error = 10). -/
def STATE_APP_IDLE : Nat := 0

/-- Modelled from the spec: runtime-detach state code (dfu.h, DFU 1.0). -/
def STATE_APP_DETACH : Nat := 1

/-- Modelled from the spec: dfu-idle state code (dfu.h, DFU 1.0). -/
def STATE_DFU_IDLE : Nat := 2

/-- Modelled from the spec: dfu-download-sync state code (dfu.h, DFU 1.0). -/
def STATE_DFU_DOWNLOAD_SYNC : Nat := 3

/-- Modelled from the spec: dfu-download-busy state code (dfu.h, DFU 1.0). -/
def STATE_DFU_DOWNLOAD_BUSY : Nat := 4

/-- Modelled from the spec: dfu-download-idle state code (dfu.h, DFU 1.0). -/
def STATE_DFU_DOWNLOAD_IDLE : Nat := 5

/-- Modelled from the spec: dfu-manifest-sync state code (dfu.h, DFU 1.0). -/
def STATE_DFU_MANIFEST_SYNC : Nat := 6

/-- Modelled from the spec: dfu-manifest state code (dfu.h, DFU 1.0). -/
def STATE_DFU_MANIFEST : Nat := 7

/-- Modelled from the spec: dfu-manifest-wait-reset state code (dfu.h, DFU 1.0). -/
def STATE_DFU_MANIFEST_WAIT_RESET : Nat := 8

/-- Modelled from the spec: dfu-upload-idle state code (dfu.h, DFU 1.0). -/
def STATE_DFU_UPLOAD_IDLE : Nat := 9

/-- Modelled from the spec: dfu-error state code (dfu.h, DFU 1.0). -/
def STATE_DFU_ERROR : Nat := 10

/-- Alias naming used inside `dfu_flash` (dfu.h defines both spellings). -/
def DFU_STATE_appIDLE : Nat := STATE_APP_IDLE

/-- Alias naming used inside `dfu_flash`. -/
def DFU_STATE_appDETACH : Nat := STATE_APP_DETACH

/-- Alias naming used inside `dfu_flash`. -/
def DFU_STATE_dfuIDLE : Nat := STATE_DFU_IDLE

/-- Alias naming used inside `dfu_flash`. -/
def DFU_STATE_dfuDNLOAD_IDLE : Nat := STATE_DFU_DOWNLOAD_IDLE

/-- Alias naming used inside `dfu_flash`. -/
def DFU_STATE_dfuUPLOAD_IDLE : Nat := STATE_DFU_UPLOAD_IDLE

/-- Alias naming used inside `dfu_flash`. -/
def DFU_STATE_dfuERROR : Nat := STATE_DFU_ERROR

/-- Modelled from the spec: status code 0, "no error" (dfu.h, DFU 1.0). -/
def DFU_STATUS_OK : Nat := 0

/-- Modelled from the spec: the unknown-error status code 0x0e used as the
decoder's default (dfu.h, DFU 1.0 errUNKNOWN). -/
def DFU_STATUS_ERROR_UNKNOWN : Nat := 14

/-- Modelled from the spec: the last defined status code, 0x0f
(dfu.h, DFU 1.0 errSTALLEDPKT); `dfu_status_to_string` guards only
against codes above this one. -/
def DFU_STATUS_errSTALLEDPKT : Nat := 15

/-- Modelled from the spec: quirk bit for the poll-timeout override
(quirks.h is not under `src/`; the spec describes a single
override-poll-timeout flag in a per-device bitset). -/
def QUIRK_POLLTIMEOUT : Nat := 1

/-- Modelled from the spec: the fixed constant substituted for the
device-reported poll timeout when the quirk is set (quirks.h). -/
def DEFAULT_POLLTIMEOUT : Nat := 5

/-- Linux errno value returned on transport-initialization failure. -/
def EIO : Int := 5

/-- Linux errno value returned when zero or several devices match. -/
def ENODEV : Int := 19

/-- Linux errno value returned on a firmware/device identifier mismatch. -/
def EINVAL : Int := 22

/-- Linux errno value returned when the download engine fails. -/
def EFAULT : Int := 14

/-- The `dfu_status` record populated by `dfu_get_status`
(struct dfu_status, all fields numeric). -/
structure dfu_status where
  bStatus : Nat
  bwPollTimeout : Nat
  bState : Nat
  iString : Nat
deriving Repr, DecidableEq

/-- The slice of `struct dfu_if` that `dfu_get_status` and `dfu_flash`
read: resolved ids, interface/alt-setting indices, quirk bits, the
functional descriptor's wTransferSize and the control endpoint's
bMaxPacketSize0. -/
structure dfu_if where
  vendor : Nat
  product : Nat
  intf : Nat
  altsetting : Nat
  quirks : Nat
  func_dfu_wTransferSize : Nat
  bMaxPacketSize0 : Nat
deriving Repr, DecidableEq

/-- Outcome of one GETSTATUS control transfer: the value
`libusb_control_transfer` returned (bytes read, or a negative error) and
the 6-byte response buffer (each entry an unsigned char). -/
structure WireStatus where
  result : Int
  buffer : Fin 6 → Nat

/-- Embedding of `dfu_get_status` (dfu.c lines 148-181).  The record is
first initialized to the error defaults; only a full 6-byte response
overwrites it.  Returns the populated record together with the C return
value (the control-transfer result, passed through verbatim). -/
def dfu_get_status (dif : dfu_if) (wire : WireStatus) : dfu_status × Int :=
  let init : dfu_status :=
    { bStatus := DFU_STATUS_ERROR_UNKNOWN
      bwPollTimeout := 0
      bState := STATE_DFU_ERROR
      iString := 0 }
  let result := wire.result
  let status :=
    if result = 6 then
      { bStatus := wire.buffer 0
        bwPollTimeout :=
          if dif.quirks &&& QUIRK_POLLTIMEOUT ≠ 0 then
            DEFAULT_POLLTIMEOUT
          else
            ((wire.buffer 3 &&& 0xff) <<< 16) |||
            ((wire.buffer 2 &&& 0xff) <<< 8) |||
            (wire.buffer 1 &&& 0xff)
        bState := wire.buffer 4
        iString := wire.buffer 5 }
    else init
  (status, result)

/-- Embedding of `dfu_state_to_string` (dfu.c lines 263-307): the C
switch over an `int`, returning NULL (`none`) on the default branch. -/
def dfu_state_to_string (state : Int) : Option String :=
  if state = (STATE_APP_IDLE : Nat) then some "appIDLE"
  else if state = (STATE_APP_DETACH : Nat) then some "appDETACH"
  else if state = (STATE_DFU_IDLE : Nat) then some "dfuIDLE"
  else if state = (STATE_DFU_DOWNLOAD_SYNC : Nat) then some "dfuDNLOAD-SYNC"
  else if state = (STATE_DFU_DOWNLOAD_BUSY : Nat) then some "dfuDNBUSY"
  else if state = (STATE_DFU_DOWNLOAD_IDLE : Nat) then some "dfuDNLOAD-IDLE"
  else if state = (STATE_DFU_MANIFEST_SYNC : Nat) then some "dfuMANIFEST-SYNC"
  else if state = (STATE_DFU_MANIFEST : Nat) then some "dfuMANIFEST"
  else if state = (STATE_DFU_MANIFEST_WAIT_RESET : Nat) then some "dfuMANIFEST-WAIT-RESET"
  else if state = (STATE_DFU_UPLOAD_IDLE : Nat) then some "dfuUPLOAD-IDLE"
  else if state = (STATE_DFU_ERROR : Nat) then some "dfuERROR"
  else none

/-- Embedding of the 16-entry table `dfu_status_names`
(dfu.c lines 310-343), verbatim strings. -/
def dfu_status_names : List String :=
  [ "No error condition is present"
  , "File is not targeted for use by this device"
  , "File is for this device but fails some vendor-specific test"
  , "Device is unable to write memory"
  , "Memory erase function failed"
  , "Memory erase check failed"
  , "Program memory function failed"
  , "Programmed memory failed verification"
  , "Cannot program memory due to received address that is out of range"
  , "Received DFU_DNLOAD with wLength = 0, but device does not think that it has all data yet"
  , "Device\x27s firmware is corrupt. It cannot return to run-time (non-DFU) operations"
  , "iString indicates a vendor specific error"
  , "Device detected unexpected USB reset signalling"
  , "Device detected unexpected power on reset"
  , "Something went wrong, but the device does not know what it was"
  , "Device stalled an unexpected request" ]

/-- Embedding of `dfu_status_to_string` (dfu.c lines 346-351).  The C
code guards only the upper bound (`status > DFU_STATUS_errSTALLEDPKT`)
and then indexes the 16-entry array with the raw `int`; a negative
argument reads out of bounds, which the total embedding renders as the
out-of-range value `none`. -/
def dfu_status_to_string (status : Int) : Option String :=
  if status > (DFU_STATUS_errSTALLEDPKT : Nat) then some "INVALID"
  else if 0 ≤ status then dfu_status_names.get? status.toNat
  else none

/-- Observable actions of `dfu_flash`, in program order: libusb calls,
DFU control transfers, the download-engine invocation, device-dictated
sleeps, and the stderr diagnostics (each diagnostic is its own
constructor; `errIdMismatch` carries the two id pairs the message
formats). -/
inductive Event where
  | libusbOpen
  | libusbClose
  | claimInterface
  | setAltSetting
  | ctrlGetStatus
  | ctrlClrStatus
  | ctrlAbort
  | downloadEngine
  | sleep (ms : Nat)
  | errInitFailed
  | errAmbiguous
  | errIdMismatch (fileVendor fileProduct devVendor devProduct : Nat)
  | errGetStatus
  | errClearStatus
  | errCantAbort
  | errRuntimeMode
  | errCommError
  | errStatusNotOK (s : Nat)
  | errTransferSizeUnspecified
deriving Repr, DecidableEq

/-- Which `errx` call terminated the process. -/
inductive ExitMsg where
  | cannotOpen
  | cannotClaim
  | cannotSetAlt
deriving Repr, DecidableEq

/-- How a `dfu_flash` run ends: a normal `return ret` (dfu.c line 539),
process termination via `errx`, or — a model artifact standing for
non-termination — exhaustion of the fuel bounding the `status_again`
loop. -/
inductive ExitKind where
  | ret (e : Int)
  | procExit (m : ExitMsg)
  | outOfFuel
deriving Repr, DecidableEq

/-- Oracle for everything outside `dfu_flash` itself: results of the
libusb calls, the loaded file's declared ids, the enumeration result of
`probe_devices` (the `dfu_root` list), the wire outcome of the k-th
GETSTATUS / CLRSTATUS / ABORT exchange, and the download engine's
result. -/
structure FlashEnv where
  libusb_init_ret : Int
  file_idVendor : Nat
  file_idProduct : Nat
  match_vendor : Int
  match_product : Int
  probe : List dfu_if
  open_ret : Int
  open_handle_ok : Bool
  claim_ret : Int
  setalt_ret : Int
  getStatusWire : Nat → WireStatus
  clrStatus_ret : Nat → Int
  abort_ret : Nat → Int
  dnload_ret : Int

/-- State threaded through the `status_again` loop: how many GETSTATUS,
CLRSTATUS and ABORT exchanges have been issued so far, and the event
trace accumulated. -/
structure LoopState where
  k_gs : Nat
  k_cs : Nat
  k_ab : Nat
  trace : List Event
deriving Repr, DecidableEq

/-- Result of a completed `dfu_flash` run: the exit kind, the full event
trace, the `*finished` out-parameter's final value, and the (possibly
auto-adopted) match criteria globals. -/
structure FlashOut where
  result : ExitKind
  trace : List Event
  finished : Int
  match_vendor : Int
  match_product : Int
deriving Repr, DecidableEq

/-- Embedding of the `status_again` label-and-goto loop of `dfu_flash`
(dfu.c lines 463-497), fuel-indexed.  One iteration: GETSTATUS (stderr
note if it failed), sleep for the decoded poll timeout, then branch on
`status.bState`: runtime states print the runtime-mode diagnostic and
leave the loop; `dfuERROR` issues CLRSTATUS and jumps back; the stale
download/upload idle states issue ABORT and jump back; every other
state (dfuIDLE and the default branch alike) leaves the loop.  `none`
in the second component means the fuel ran out while the C code would
still be looping. -/
def statusLoop (env : FlashEnv) (d : dfu_if) :
    Nat → LoopState → LoopState × Option (dfu_status × Int)
  | 0, st => (st, none)
  | n + 1, st =>
    let gs := dfu_get_status d (env.getStatusWire st.k_gs)
    let status := gs.1
    let r := gs.2
    let tr := st.trace ++ [Event.ctrlGetStatus]
      ++ (if r < 0 then [Event.errGetStatus] else [])
      ++ [Event.sleep status.bwPollTimeout]
    if status.bState = DFU_STATE_appIDLE ∨ status.bState = DFU_STATE_appDETACH then
      ({ st with k_gs := st.k_gs + 1, trace := tr ++ [Event.errRuntimeMode] },
        some (status, r))
    else if status.bState = DFU_STATE_dfuERROR then
      statusLoop env d n
        { st with
          k_gs := st.k_gs + 1
          k_cs := st.k_cs + 1
          trace := tr ++ [Event.ctrlClrStatus]
            ++ (if env.clrStatus_ret st.k_cs < 0 then [Event.errClearStatus] else []) }
    else if status.bState = DFU_STATE_dfuDNLOAD_IDLE ∨
            status.bState = DFU_STATE_dfuUPLOAD_IDLE then
      statusLoop env d n
        { st with
          k_gs := st.k_gs + 1
          k_ab := st.k_ab + 1
          trace := tr ++ [Event.ctrlAbort]
            ++ (if env.abort_ret st.k_ab < 0 then [Event.errCantAbort] else []) }
    else
      ({ st with k_gs := st.k_gs + 1, trace := tr }, some (status, r))

/-- The status record after the best-effort recovery block of
`dfu_flash` (dfu.c lines 499-510): when the loop left a non-OK status,
one CLRSTATUS + GETSTATUS pair refreshes the record; otherwise it is
unchanged. -/
def recoveredStatus (env : FlashEnv) (d : dfu_if) (st : LoopState)
    (status : dfu_status) : dfu_status :=
  if status.bStatus ≠ DFU_STATUS_OK then
    (dfu_get_status d (env.getStatusWire st.k_gs)).1
  else status

/-- The events emitted by the recovery block of dfu.c lines 499-510,
appended to the loop's trace (same branch condition as
`recoveredStatus`; the two definitions split the C block's record
update and its observable actions). -/
def recoveryTrace (env : FlashEnv) (d : dfu_if) (st : LoopState)
    (status : dfu_status) : List Event :=
  if status.bStatus ≠ DFU_STATUS_OK then
    let gs := dfu_get_status d (env.getStatusWire st.k_gs)
    st.trace ++ [Event.ctrlClrStatus]
      ++ (if env.clrStatus_ret st.k_cs < 0 then [Event.errCommError] else [])
      ++ [Event.ctrlGetStatus]
      ++ (if gs.2 < 0 then [Event.errCommError] else [])
      ++ (if gs.1.bStatus ≠ DFU_STATUS_OK then [Event.errStatusNotOK gs.1.bStatus] else [])
      ++ [Event.sleep gs.1.bwPollTimeout]
  else st.trace

/-- Transfer-size negotiation of dfu.c lines 512-527.  The local
`transfer_size` is initialized to 0 and this build has no caller
override, so the functional descriptor's value is adopted when nonzero,
and in every case the result is clamped up to `bMaxPacketSize0`. -/
def negotiatedTransferSize (d : dfu_if) : Nat :=
  let func_dfu_transfer_size := d.func_dfu_wTransferSize
  let transfer_size : Nat := 0
  let transfer_size :=
    if func_dfu_transfer_size ≠ 0 then
      if transfer_size = 0 then func_dfu_transfer_size else transfer_size
    else transfer_size
  if transfer_size < d.bMaxPacketSize0 then d.bMaxPacketSize0 else transfer_size

/-- The diagnostic the negotiation block prints when the descriptor
advertises size 0 and `transfer_size` is still 0 (dfu.c line 521). -/
def transferSizeTrace (d : dfu_if) : List Event :=
  let func_dfu_transfer_size := d.func_dfu_wTransferSize
  let transfer_size : Nat := 0
  if func_dfu_transfer_size ≠ 0 then []
  else if transfer_size = 0 then [Event.errTransferSizeUnspecified]
  else []

/-- The tail of `dfu_flash` after the normalization loop has delivered a
status record (dfu.c lines 499-539): recovery block, transfer-size
negotiation, unconditional `dfuload_do_dnload` invocation, then
`libusb_close` and the normal return.  `r` is the loop's final
`dfu_get_status` return value, which — never being overwritten after
the loop — is what `dfu_flash` returns when the engine does not fail. -/
def finishFlash (env : FlashEnv) (d : dfu_if) (mv mp : Int)
    (pre : List Event) (st : LoopState) (status : dfu_status) (r : Int) :
    FlashOut :=
  let status2 := recoveredStatus env d st status
  let tr2 := recoveryTrace env d st status
  let transfer_size := negotiatedTransferSize d
  let tr3 := tr2 ++ transferSizeTrace d
  let ret2 : Int := if env.dnload_ret < 0 then EFAULT else r
  { result := ExitKind.ret ret2
    trace := pre ++ tr3 ++ [Event.downloadEngine, Event.libusbClose]
    finished := if ret2 ≠ 0 then -1 else 1
    match_vendor := mv
    match_product := mp }

/-- The `match_vendor` global after the auto-adoption of dfu.c lines
408-411: an unset criterion adopts the file's non-wildcard vendor id. -/
def adoptedMatchVendor (env : FlashEnv) : Int :=
  if env.match_vendor < 0 ∧ env.file_idVendor ≠ 0xffff then
    (env.file_idVendor : Int)
  else env.match_vendor

/-- The `match_product` global after the auto-adoption of dfu.c lines
412-415. -/
def adoptedMatchProduct (env : FlashEnv) : Int :=
  if env.match_product < 0 ∧ env.file_idProduct ≠ 0xffff then
    (env.file_idProduct : Int)
  else env.match_product

/-- Embedding of `dfu_flash` (dfu.c lines 386-540).  In source order:
libusb initialization (early `return EIO` on failure), file load and
match-criteria auto-adoption, `probe_devices`, the zero/ambiguous
candidate checks (`goto out` with ENODEV), the firmware/device id
mismatch check (`goto out` with EINVAL), open / claim / set-alt-setting
(each failure an `errx` process exit), the `status_again` loop, and
`finishFlash` for the remainder.  `fuel` bounds the loop's goto
iterations. -/
def dfu_flash (env : FlashEnv) (fuel : Nat) : FlashOut :=
  if env.libusb_init_ret ≠ 0 then
    { result := ExitKind.ret EIO
      trace := [Event.errInitFailed]
      finished := 0
      match_vendor := env.match_vendor
      match_product := env.match_product }
  else
    let mv : Int := adoptedMatchVendor env
    let mp : Int := adoptedMatchProduct env
    match env.probe with
    | [] =>
      { result := ExitKind.ret ENODEV
        trace := []
        finished := -1
        match_vendor := mv
        match_product := mp }
    | d :: rest =>
      if rest ≠ [] then
        { result := ExitKind.ret ENODEV
          trace := [Event.errAmbiguous]
          finished := -1
          match_vendor := mv
          match_product := mp }
      else if (env.file_idVendor ≠ 0xffff ∧ env.file_idVendor ≠ d.vendor) ∨
              (env.file_idProduct ≠ 0xffff ∧ env.file_idProduct ≠ d.product) then
        { result := ExitKind.ret EINVAL
          trace := [Event.errIdMismatch env.file_idVendor env.file_idProduct
                      d.vendor d.product]
          finished := -1
          match_vendor := mv
          match_product := mp }
      else if env.open_ret ≠ 0 ∨ env.open_handle_ok = false then
        { result := ExitKind.procExit ExitMsg.cannotOpen
          trace := [Event.libusbOpen]
          finished := 0
          match_vendor := mv
          match_product := mp }
      else if env.claim_ret < 0 then
        { result := ExitKind.procExit ExitMsg.cannotClaim
          trace := [Event.libusbOpen, Event.claimInterface]
          finished := 0
          match_vendor := mv
          match_product := mp }
      else if env.setalt_ret < 0 then
        { result := ExitKind.procExit ExitMsg.cannotSetAlt
          trace := [Event.libusbOpen, Event.claimInterface, Event.setAltSetting]
          finished := 0
          match_vendor := mv
          match_product := mp }
      else
        let pre := [Event.libusbOpen, Event.claimInterface, Event.setAltSetting]
        match statusLoop env d fuel ⟨0, 0, 0, []⟩ with
        | (st, none) =>
          { result := ExitKind.outOfFuel
            trace := pre ++ st.trace
            finished := 0
            match_vendor := mv
            match_product := mp }
        | (st, some (status, r)) => finishFlash env d mv mp pre st status r

/-- A representative resolved interface: benign quirk-free device with a
1024-byte functional transfer size and a 64-byte control endpoint. -/
def difStd : dfu_if :=
  { vendor := 0x1234
    product := 0x5678
    intf := 0
    altsetting := 0
    quirks := 0
    func_dfu_wTransferSize := 1024
    bMaxPacketSize0 := 64 }

/-- A full 6-byte GETSTATUS response reporting status OK, poll timeout 0
and the given device state. -/
def wireWithState (s : Nat) : WireStatus :=
  { result := 6, buffer := fun i => if i.val = 4 then s else 0 }

/-- Baseline oracle: libusb succeeds everywhere, the file carries
wildcard ids, exactly one candidate interface is resolved, and the
device reports dfuIDLE with status OK on every poll. -/
def baseEnv : FlashEnv :=
  { libusb_init_ret := 0
    file_idVendor := 0xffff
    file_idProduct := 0xffff
    match_vendor := -1
    match_product := -1
    probe := [difStd]
    open_ret := 0
    open_handle_ok := true
    claim_ret := 0
    setalt_ret := 0
    getStatusWire := fun _ => wireWithState STATE_DFU_IDLE
    clrStatus_ret := fun _ => 0
    abort_ret := fun _ => 0
    dnload_ret := 0 }

/-- Baseline, but the device reports runtime appIDLE on every poll. -/
def envRuntimeIdle : FlashEnv :=
  { baseEnv with getStatusWire := fun _ => wireWithState STATE_APP_IDLE }

/-- Baseline, but the interface descriptor advertises transfer size 0. -/
def envNoTransferSize : FlashEnv :=
  { baseEnv with probe := [{ difStd with func_dfu_wTransferSize := 0 }] }

/-- Baseline, but the device reports dfuERROR on every poll — a
permanently faulted device. -/
def envAlwaysError : FlashEnv :=
  { baseEnv with getStatusWire := fun _ => wireWithState STATE_DFU_ERROR }

/-- Baseline, but `libusb_claim_interface` fails. -/
def envClaimFails : FlashEnv :=
  { baseEnv with claim_ret := -1 }

/-- Claim C1: the spec says a device observed in runtime-idle (appIDLE)
after setup makes `dfu_flash` fail with a fatal ProtocolStateError and
the Download Engine is never invoked.  Evaluating the embedding at that
failing input shows the code merely prints the runtime-mode diagnostic
and then still invokes `dfuload_do_dnload`, returning the last
`dfu_get_status` byte count (6) as if the run were acceptable. -/
theorem c1_runtime_mode_flash_proceeds :
    Event.errRuntimeMode ∈ (dfu_flash envRuntimeIdle 8).trace ∧
    Event.downloadEngine ∈ (dfu_flash envRuntimeIdle 8).trace ∧
    (dfu_flash envRuntimeIdle 8).result = ExitKind.ret 6 := by
  decide

/-- Claim C3: the spec says a zero functional transfer size with no
override makes `dfu_flash` fail with ConfigurationError before invoking
the Download Engine.  Evaluating the embedding at that input shows the
code prints the "transfer size must be specified" diagnostic, clamps
the size to `bMaxPacketSize0`, and invokes `dfuload_do_dnload` anyway. -/
theorem c3_transfer_size_zero_flash_proceeds :
    Event.errTransferSizeUnspecified ∈ (dfu_flash envNoTransferSize 8).trace ∧
    Event.downloadEngine ∈ (dfu_flash envNoTransferSize 8).trace ∧
    (dfu_flash envNoTransferSize 8).result = ExitKind.ret 6 := by
  decide

/-- Claim C2, counterexample: against a permanently faulted device
(dfuERROR on every poll) the normalization loop of `dfu_flash` has
already issued 10 consecutive CLRSTATUS requests — beyond any
single-digit cap — and is still looping (fuel exhausted), with no
LoopGuardError-style failure ever produced. -/
theorem c2_bounded_loop_counterexample :
    (dfu_flash envAlwaysError 10).result = ExitKind.outOfFuel ∧
    (dfu_flash envAlwaysError 10).trace.count Event.ctrlClrStatus = 10 := by
  decide

/-- Claim C4, counterexample: when `libusb_claim_interface` fails after
the device was opened, `dfu_flash` terminates the process via `errx`
with the handle still open — `libusbOpen` is in the trace but
`libusbClose` is not. -/
theorem c4_handle_leak_counterexample :
    (dfu_flash envClaimFails 4).result = ExitKind.procExit ExitMsg.cannotClaim ∧
    Event.libusbOpen ∈ (dfu_flash envClaimFails 4).trace ∧
    Event.libusbClose ∉ (dfu_flash envClaimFails 4).trace := by
  decide

/-- Against a device whose every GETSTATUS exchange decodes to state
dfuERROR, `statusLoop` never delivers a status: each step issues one
more CLRSTATUS and jumps back, for any amount of fuel. -/
theorem statusLoop_perpetual_error (env : FlashEnv) (d : dfu_if)
    (herr : ∀ k, (dfu_get_status d (env.getStatusWire k)).1.bState = DFU_STATE_dfuERROR) :
    ∀ (n : Nat) (st : LoopState),
      (statusLoop env d n st).2 = none ∧
      ((statusLoop env d n st).1).trace.count Event.ctrlClrStatus
        = st.trace.count Event.ctrlClrStatus + n := by
  intro n
  induction n with
  | zero => intro st; simp [statusLoop]
  | succ m ih =>
    intro st
    have hs := herr st.k_gs
    rw [statusLoop, hs]
    have hne1 : ¬ (DFU_STATE_dfuERROR = DFU_STATE_appIDLE ∨
        DFU_STATE_dfuERROR = DFU_STATE_appDETACH) := by decide
    rw [if_neg hne1, if_pos rfl]
    refine ⟨(ih _).1, ?_⟩
    rw [(ih _).2]
    simp only [List.count_append]
    have c1 : List.count Event.ctrlClrStatus
        (if env.clrStatus_ret st.k_cs < 0 then [Event.errClearStatus] else []) = 0 := by
      split <;> decide
    have c2 : List.count Event.ctrlClrStatus
        (if (dfu_get_status d (env.getStatusWire st.k_gs)).2 < 0
         then [Event.errGetStatus] else []) = 0 := by
      split <;> decide
    rw [c1, c2]
    simp [List.count_cons, List.count_nil]
    omega

/-- Claim C2 (amended): the normalization poll loop of `dfu_flash` is
unbounded.  Whenever the device persistently decodes to dfu-error and
setup succeeded, the loop issues CLRSTATUS and re-polls forever: for
every fuel bound n, the run is still looping after n consecutive
CLRSTATUS requests, and no retry cap or LoopGuardError of any kind is
raised. -/
theorem c2_dfu_error_loop_unbounded (env : FlashEnv) (d : dfu_if) (n : Nat)
    (hinit : env.libusb_init_ret = 0)
    (hprobe : env.probe = [d])
    (hfv : env.file_idVendor = 0xffff)
    (hfp : env.file_idProduct = 0xffff)
    (hopen : env.open_ret = 0)
    (hhandle : env.open_handle_ok = true)
    (hclaim : 0 ≤ env.claim_ret)
    (halt : 0 ≤ env.setalt_ret)
    (herr : ∀ k, (dfu_get_status d (env.getStatusWire k)).1.bState = DFU_STATE_dfuERROR) :
    (dfu_flash env n).result = ExitKind.outOfFuel ∧
    (dfu_flash env n).trace.count Event.ctrlClrStatus = n := by
  obtain ⟨h1, h2⟩ := statusLoop_perpetual_error env d herr n ⟨0, 0, 0, []⟩
  simp only [dfu_flash, hinit, hprobe, hfv, hfp, hopen, hhandle]
  rcases heq : statusLoop env d n ⟨0, 0, 0, []⟩ with ⟨st, o⟩
  rw [heq] at h1 h2
  simp only at h1
  subst h1
  simp only [ne_eq, not_true_eq_false, if_false, reduceIte, and_false, false_and,
    or_self, not_false_eq_true, if_neg (by omega : ¬ env.claim_ret < 0),
    if_neg (by omega : ¬ env.setalt_ret < 0), heq]
  refine ⟨rfl, ?_⟩
  simp only at h2
  simpa using h2

/-- Claim C2 (amended) witness: with the concrete permanently faulted
device oracle, three units of fuel yield three CLRSTATUS requests and a
still-looping run. -/
theorem c2_dfu_error_loop_unbounded_witness :
    (dfu_flash envAlwaysError 3).result = ExitKind.outOfFuel ∧
    (dfu_flash envAlwaysError 3).trace.count Event.ctrlClrStatus = 3 :=
  c2_dfu_error_loop_unbounded envAlwaysError difStd 3 rfl rfl rfl rfl rfl rfl
    (by decide) (by decide) (fun _ => rfl)

/-- ... the normal-return tail of `dfu_flash` always logs the
`libusb_close` of dfu.c line 534. -/
theorem libusbClose_mem_finishFlash (env : FlashEnv) (d : dfu_if) (mv mp : Int)
    (pre : List Event) (st : LoopState) (status : dfu_status) (r : Int) :
    Event.libusbClose ∈ (finishFlash env d mv mp pre st status r).trace := by
  simp [finishFlash, List.mem_append]

/-- Claim C4 (amended): the handle-closing guarantee holds only on the
paths on which `dfu_flash` itself returns: whenever the run ends with a
normal `return` and the device was opened, `libusb_close` was logged
first (in fact all `goto out` error returns happen before the open).
It does not hold on the fatal `errx` paths after the open — open /
claim / alt-setting failures terminate the process with the handle
still open, as the counterexample shows. -/
theorem c4_handle_closed_on_return (env : FlashEnv) (fuel : Nat) (e : Int)
    (h : (dfu_flash env fuel).result = ExitKind.ret e)
    (ho : Event.libusbOpen ∈ (dfu_flash env fuel).trace) :
    Event.libusbClose ∈ (dfu_flash env fuel).trace := by
  revert h ho
  unfold dfu_flash
  split
  · intro _ ho; simp at ho
  · split
    · intro _ ho; simp at ho
    · split
      · intro _ ho; simp at ho
      · split
        · intro _ ho; simp at ho
        · split
          · intro h _; simp at h
          · split
            · intro h _; simp at h
            · split
              · intro h _; simp at h
              · split
                · intro h _; simp at h
                · intro _ _; exact libusbClose_mem_finishFlash _ _ _ _ _ _ _ _

/-- Claim C4 (amended) witness: a fully successful concrete run closes
the handle it opened. -/
theorem c4_handle_closed_on_return_witness :
    Event.libusbClose ∈ (dfu_flash baseEnv 4).trace :=
  c4_handle_closed_on_return baseEnv 4 6 (by decide) (by decide)

/-- Claim C6: when exactly one interface is resolved and the firmware
image declares a non-wildcard id differing from the device's, flash
returns EINVAL, its only observable action is the stderr message
carrying both id pairs, and no control transfer, no open and no
download-engine invocation ever happens. -/
theorem c6_id_mismatch_fails_before_any_transfer (env : FlashEnv) (fuel : Nat)
    (d : dfu_if)
    (hinit : env.libusb_init_ret = 0)
    (hprobe : env.probe = [d])
    (hmis : (env.file_idVendor ≠ 0xffff ∧ env.file_idVendor ≠ d.vendor) ∨
            (env.file_idProduct ≠ 0xffff ∧ env.file_idProduct ≠ d.product)) :
    (dfu_flash env fuel).result = ExitKind.ret EINVAL ∧
    (dfu_flash env fuel).trace =
      [Event.errIdMismatch env.file_idVendor env.file_idProduct d.vendor d.product] ∧
    Event.libusbOpen ∉ (dfu_flash env fuel).trace ∧
    Event.ctrlGetStatus ∉ (dfu_flash env fuel).trace ∧
    Event.ctrlClrStatus ∉ (dfu_flash env fuel).trace ∧
    Event.ctrlAbort ∉ (dfu_flash env fuel).trace ∧
    Event.downloadEngine ∉ (dfu_flash env fuel).trace := by
  simp only [dfu_flash, hinit, hprobe]
  rw [if_neg (by simp), if_neg (by simp), if_pos hmis]
  refine ⟨rfl, rfl, ?_, ?_, ?_, ?_, ?_⟩ <;> simp

/-- Baseline, but the firmware file declares vendor id 0x1111 which does
not match the resolved device's 0x1234. -/
def envIdMismatch : FlashEnv :=
  { baseEnv with file_idVendor := 0x1111 }

/-- Claim C6 witness: concrete mismatching run. -/
theorem c6_id_mismatch_witness :
    (dfu_flash envIdMismatch 1).result = ExitKind.ret EINVAL ∧
    (dfu_flash envIdMismatch 1).trace =
      [Event.errIdMismatch 0x1111 0xffff 0x1234 0x5678] ∧
    Event.libusbOpen ∉ (dfu_flash envIdMismatch 1).trace ∧
    Event.ctrlGetStatus ∉ (dfu_flash envIdMismatch 1).trace ∧
    Event.ctrlClrStatus ∉ (dfu_flash envIdMismatch 1).trace ∧
    Event.ctrlAbort ∉ (dfu_flash envIdMismatch 1).trace ∧
    Event.downloadEngine ∉ (dfu_flash envIdMismatch 1).trace :=
  c6_id_mismatch_fails_before_any_transfer envIdMismatch 1 difStd rfl rfl
    (Or.inl ⟨by decide, by decide⟩)

/-- Claim C7: zero enumerator candidates give a silent ENODEV return
with an empty trace (in particular no handle is ever opened); two or
more candidates give the ambiguity diagnostic and the same ENODEV
return, again with no handle opened. -/
theorem c7_no_device_and_ambiguous (env : FlashEnv) (fuel : Nat)
    (hinit : env.libusb_init_ret = 0) :
    (env.probe = [] →
      (dfu_flash env fuel).result = ExitKind.ret ENODEV ∧
      (dfu_flash env fuel).trace = [] ∧
      Event.libusbOpen ∉ (dfu_flash env fuel).trace) ∧
    (∀ d1 d2 ds, env.probe = d1 :: d2 :: ds →
      (dfu_flash env fuel).result = ExitKind.ret ENODEV ∧
      (dfu_flash env fuel).trace = [Event.errAmbiguous] ∧
      Event.libusbOpen ∉ (dfu_flash env fuel).trace) := by
  constructor
  · intro h
    simp [dfu_flash, hinit, h]
  · intro d1 d2 ds h
    simp [dfu_flash, hinit, h]

/-- Baseline, but the enumerator resolves no candidate at all. -/
def envNoDevice : FlashEnv :=
  { baseEnv with probe := [] }

/-- Baseline, but the enumerator resolves two candidates. -/
def envTwoDevices : FlashEnv :=
  { baseEnv with probe := [difStd, difStd] }

/-- Claim C7 witness: the two concrete enumeration outcomes. -/
theorem c7_no_device_and_ambiguous_witness :
    ((dfu_flash envNoDevice 1).result = ExitKind.ret ENODEV ∧
      (dfu_flash envNoDevice 1).trace = []) ∧
    ((dfu_flash envTwoDevices 1).result = ExitKind.ret ENODEV ∧
      (dfu_flash envTwoDevices 1).trace = [Event.errAmbiguous]) := by
  refine ⟨?_, ?_⟩
  · have h := (c7_no_device_and_ambiguous envNoDevice 1 rfl).1 rfl
    exact ⟨h.1, h.2.1⟩
  · have h := (c7_no_device_and_ambiguous envTwoDevices 1 rfl).2 difStd difStd [] rfl
    exact ⟨h.1, h.2.1⟩

/-- Bytes below 256 assembled by the C expression
`((0xff & b3) << 16) | ((0xff & b2) << 8) | (0xff & b1)` equal the
little-endian base-256 value `b1 + 256*b2 + 65536*b3`. -/
theorem le24_assemble (b1 b2 b3 : Nat)
    (h1 : b1 < 256) (h2 : b2 < 256) (h3 : b3 < 256) :
    ((b3 &&& 0xff) <<< 16) ||| ((b2 &&& 0xff) <<< 8) ||| (b1 &&& 0xff)
      = b1 + 256 * b2 + 65536 * b3 := by
  have e1 : b1 &&& 0xff = b1 := by
    simpa using Nat.and_pow_two_sub_one_of_lt_two_pow
      (x := b1) (n := 8) (Nat.lt_of_lt_of_le h1 (by norm_num))
  have e2 : b2 &&& 0xff = b2 := by
    simpa using Nat.and_pow_two_sub_one_of_lt_two_pow
      (x := b2) (n := 8) (Nat.lt_of_lt_of_le h2 (by norm_num))
  have e3 : b3 &&& 0xff = b3 := by
    simpa using Nat.and_pow_two_sub_one_of_lt_two_pow
      (x := b3) (n := 8) (Nat.lt_of_lt_of_le h3 (by norm_num))
  rw [e1, e2, e3, Nat.shiftLeft_eq, Nat.shiftLeft_eq]
  have hb2 : b2 * 2 ^ 8 < 2 ^ 16 := by norm_num; omega
  have hb1 : b1 < 2 ^ 8 := by norm_num; omega
  have hInner : b3 * 2 ^ 16 ||| b2 * 2 ^ 8 = 2 ^ 16 * b3 + b2 * 2 ^ 8 := by
    rw [Nat.mul_comm b3 (2 ^ 16)]
    exact (Nat.mul_add_lt_is_or hb2 b3).symm
  rw [hInner]
  have hshape : 2 ^ 16 * b3 + b2 * 2 ^ 8 = 2 ^ 8 * (2 ^ 8 * b3 + b2) := by ring
  rw [hshape, ← Nat.mul_add_lt_is_or hb1 (2 ^ 8 * b3 + b2)]
  norm_num
  ring

/-- Claim C5: a full 6-byte GETSTATUS response populates the record with
byte 0 as status, bytes 1-3 as the little-endian 24-bit poll timeout
(replaced by `DEFAULT_POLLTIMEOUT` under `QUIRK_POLLTIMEOUT`), byte 4 as
state and byte 5 as string index; a shorter response leaves exactly the
{unknown-error, 0, error-state, 0} defaults and passes the short/error
transfer result through as the (non-6, hence failing) return value.
The record is a complete four-field record in both cases. -/
theorem c5_get_status_decode (dif : dfu_if) (wire : WireStatus)
    (hb : ∀ i, wire.buffer i < 256) :
    (wire.result = 6 →
      (dfu_get_status dif wire).1.bStatus = wire.buffer 0 ∧
      (dfu_get_status dif wire).1.bwPollTimeout =
        (if dif.quirks &&& QUIRK_POLLTIMEOUT ≠ 0 then DEFAULT_POLLTIMEOUT
         else wire.buffer 1 + 256 * wire.buffer 2 + 65536 * wire.buffer 3) ∧
      (dfu_get_status dif wire).1.bState = wire.buffer 4 ∧
      (dfu_get_status dif wire).1.iString = wire.buffer 5) ∧
    (wire.result < 6 →
      (dfu_get_status dif wire).1 =
        { bStatus := DFU_STATUS_ERROR_UNKNOWN
          bwPollTimeout := 0
          bState := STATE_DFU_ERROR
          iString := 0 } ∧
      (dfu_get_status dif wire).2 = wire.result ∧
      (dfu_get_status dif wire).2 ≠ 6) := by
  constructor
  · intro h6
    have hval : dfu_get_status dif wire =
        ({ bStatus := wire.buffer 0
           bwPollTimeout :=
             if dif.quirks &&& QUIRK_POLLTIMEOUT ≠ 0 then DEFAULT_POLLTIMEOUT
             else ((wire.buffer 3 &&& 0xff) <<< 16) |||
                  ((wire.buffer 2 &&& 0xff) <<< 8) |||
                  (wire.buffer 1 &&& 0xff)
           bState := wire.buffer 4
           iString := wire.buffer 5 }, wire.result) := by
      simp [dfu_get_status, h6]
    rw [hval]
    refine ⟨rfl, ?_, rfl, rfl⟩
    rcases Decidable.em (dif.quirks &&& QUIRK_POLLTIMEOUT ≠ 0) with hq | hq
    · rw [if_pos hq, if_pos hq]
    · rw [if_neg hq, if_neg hq]
      exact le24_assemble _ _ _ (hb 1) (hb 2) (hb 3)
  · intro hlt
    have hne : ¬ (wire.result = 6) := by omega
    have hval : dfu_get_status dif wire =
        ({ bStatus := DFU_STATUS_ERROR_UNKNOWN
           bwPollTimeout := 0
           bState := STATE_DFU_ERROR
           iString := 0 }, wire.result) := by
      simp [dfu_get_status, hne]
    rw [hval]
    exact ⟨rfl, rfl, hne⟩

/-- A full 6-byte sample response: status 0, poll bytes 16/32/1, state
dfuIDLE, string index 7. -/
def wireSample : WireStatus :=
  { result := 6, buffer := fun i => [0, 16, 32, 1, 2, 7].getD i.val 0 }

/-- A short (3-byte) GETSTATUS response. -/
def wireShort : WireStatus :=
  { result := 3, buffer := fun _ => 0 }

/-- Claim C5 witness: the sample response decodes bytes 1-3 to
16 + 256*32 + 65536*1 and byte 4 to dfuIDLE; the short response leaves
the error defaults and a non-6 return value. -/
theorem c5_get_status_decode_witness :
    (dfu_get_status difStd wireSample).1.bwPollTimeout = 16 + 256 * 32 + 65536 * 1 ∧
    (dfu_get_status difStd wireSample).1.bState = 2 ∧
    (dfu_get_status difStd wireShort).1 =
      { bStatus := DFU_STATUS_ERROR_UNKNOWN
        bwPollTimeout := 0
        bState := STATE_DFU_ERROR
        iString := 0 } ∧
    (dfu_get_status difStd wireShort).2 ≠ 6 := by
  have hA := (c5_get_status_decode difStd wireSample (by decide)).1 rfl
  have hB := (c5_get_status_decode difStd wireShort (by decide)).2 (by decide)
  refine ⟨?_, ?_, hB.1, hB.2.2⟩
  · rw [hA.2.1]
    decide
  · rw [hA.2.2.1]
    decide

/-- Claim C8, counterexample: the table entry for status code 0 is not
the sentence the claim fixes; the code's string is
"No error condition is present". -/
theorem c8_status0_label_counterexample :
    dfu_status_to_string 0 ≠ some "no error condition present" := by
  decide

/-- Claim C8 (amended): status code 0 maps to the code's exact sentence
"No error condition is present", and the dfu-idle state code maps to
the exact label "dfuIDLE". -/
theorem c8_diagnostic_labels_exact :
    dfu_status_to_string 0 = some "No error condition is present" ∧
    dfu_state_to_string ((STATE_DFU_IDLE : Nat) : Int) = some "dfuIDLE" := by
  decide

/-- Claim C9: `dfu_state_to_string` yields a label exactly on the 11
named DFU state codes and `none` on every other integer;
`dfu_status_to_string` yields an entry of the 16-string table on every
code 0-15 and the "INVALID" sentinel on every code above 15. -/
theorem c9_table_domains (s : Int) :
    ((dfu_state_to_string s).isSome ↔
      (s = (STATE_APP_IDLE : Nat) ∨ s = (STATE_APP_DETACH : Nat) ∨
       s = (STATE_DFU_IDLE : Nat) ∨ s = (STATE_DFU_DOWNLOAD_SYNC : Nat) ∨
       s = (STATE_DFU_DOWNLOAD_BUSY : Nat) ∨ s = (STATE_DFU_DOWNLOAD_IDLE : Nat) ∨
       s = (STATE_DFU_MANIFEST_SYNC : Nat) ∨ s = (STATE_DFU_MANIFEST : Nat) ∨
       s = (STATE_DFU_MANIFEST_WAIT_RESET : Nat) ∨ s = (STATE_DFU_UPLOAD_IDLE : Nat) ∨
       s = (STATE_DFU_ERROR : Nat))) ∧
    (0 ≤ s → s ≤ 15 →
      ∃ m, dfu_status_to_string s = some m ∧ m ∈ dfu_status_names) ∧
    (15 < s → dfu_status_to_string s = some "INVALID") := by
  refine ⟨?_, ?_, ?_⟩
  · constructor
    · intro hs
      by_contra hn
      push_neg at hn
      obtain ⟨n0, n1, n2, n3, n4, n5, n6, n7, n8, n9, n10⟩ := hn
      simp only [dfu_state_to_string] at hs
      rw [if_neg n0, if_neg n1, if_neg n2, if_neg n3, if_neg n4, if_neg n5,
        if_neg n6, if_neg n7, if_neg n8, if_neg n9, if_neg n10] at hs
      simp at hs
    · intro hs
      rcases hs with h | h | h | h | h | h | h | h | h | h | h <;> subst h <;> decide
  · intro h0 h15
    have hng : ¬ (s > ((DFU_STATUS_errSTALLEDPKT : Nat) : Int)) := by
      simp only [DFU_STATUS_errSTALLEDPKT]
      push_cast
      omega
    unfold dfu_status_to_string
    rw [if_neg hng, if_pos h0]
    have hlt : s.toNat < dfu_status_names.length := by
      simp only [dfu_status_names, List.length]
      omega
    exact ⟨_, List.get?_eq_get hlt, List.get_mem _ _ _⟩
  · intro h
    have hg : s > ((DFU_STATUS_errSTALLEDPKT : Nat) : Int) := by
      simp only [DFU_STATUS_errSTALLEDPKT]
      push_cast
      omega
    unfold dfu_status_to_string
    rw [if_pos hg]

/-- Claim C9 witness: code 7 yields a table entry; code 99 yields the
sentinel. -/
theorem c9_table_domains_witness :
    (∃ m, dfu_status_to_string 7 = some m ∧ m ∈ dfu_status_names) ∧
    dfu_status_to_string 99 = some "INVALID" :=
  ⟨(c9_table_domains 7).2.1 (by decide) (by decide),
   (c9_table_domains 99).2.2 (by decide)⟩

/-- Claim C10: for every negative status code, the only guard in
`dfu_status_to_string` (the upper bound) does not fire, and the array
lookup is out of bounds: the total embedding returns the out-of-range
value `none`, never the "INVALID" sentinel. -/
theorem c10_negative_status_oob (s : Int) (h : s < 0) :
    dfu_status_to_string s = none ∧
    dfu_status_to_string s ≠ some "INVALID" := by
  have h1 : ¬ (s > ((DFU_STATUS_errSTALLEDPKT : Nat) : Int)) := by
    simp only [DFU_STATUS_errSTALLEDPKT]
    push_cast
    omega
  have h2 : ¬ ((0 : Int) ≤ s) := by omega
  unfold dfu_status_to_string
  rw [if_neg h1, if_neg h2]
  exact ⟨rfl, by simp⟩

/-- Claim C10 witness: status code -1 falls into the out-of-bounds
branch. -/
theorem c10_negative_status_oob_witness :
    dfu_status_to_string (-1) = none :=
  (c10_negative_status_oob (-1) (by decide)).1

end LibDfu
